import Mathlib

/-!
A shallow embedding of the notification dispatch engine of the mwheba-tasks
backend (`backend/notifications/service.py` and `backend/tasks/signals.py`),
with theorems checking the claims of the specification about it.

Modelling conventions:
* Python dictionaries with string keys are association lists
  (`List (String × _)`); `dict` membership is `List.lookup _ _ ≠ none`.
* Python scalar values are the inductive type `PyVal`, with Python
  truthiness (`truthy`) and `str(...)` coercion (`pyStr`).
* `str.format` is `pyFmt`, covering the simple replacement fields
  (`{name}`, the `{{` / `}}` escapes, and the error cases) that can occur
  with the templates of the repository; all-digit field names map to the Python
  positional-argument `IndexError` path.
* The outbound HTTP endpoint is an oracle `Nat → Outcome` giving each
  outcome of each attempt (a status code, or one of the caught exception kinds);
  `time.sleep` calls are recorded in the returned trace.
* The Django settings store is the oracle `SettingsFetch`; an exception
  while fetching is the `err` case.  A `None` value of the stored
  `notification_templates` field and an empty mapping are both falsy in
  the source, and both are modelled as `[]`.
-/

/-- A Python scalar value: a string, an integer, a boolean, or `None`. -/
inductive PyVal where
  | str (s : String)
  | int (n : Int)
  | bool (b : Bool)
  | none
deriving DecidableEq

/-- Python truthiness of a `PyVal`. -/
def truthy : PyVal → Bool
  | .str s => !(s == "")
  | .int n => !(n == 0)
  | .bool b => b
  | .none => false

/-- Python `str(...)` coercion of a `PyVal`. -/
def pyStr : PyVal → String
  | .str s => s
  | .int n => toString n
  | .bool b => if b then "True" else "False"
  | .none => "None"

/-- A template context: a Python dict from placeholder names to values. -/
abbrev Ctx := List (String × PyVal)

/-- The opening brace character. -/
def lbrace : Char := Char.ofNat 123

/-- The closing brace character. -/
def rbrace : Char := Char.ofNat 125

/-- Errors of the `str.format` model, mirroring the exceptions that Python
`str.format` can raise on the inputs reachable in this code base. -/
inductive FmtErr where
  | unclosedField
  | singleRBrace
  | fieldLBrace
  | indexError
  | keyError (key : String)
deriving DecidableEq

/-- Parser state of the `str.format` model: scanning literal text, having
just seen a lone `\x7d` (which is an error unless doubled), or scanning a
replacement-field name (accumulated in reverse; an opening brace with an
empty accumulator is the `\x7b\x7b` escape). -/
inductive FmtMode where
  | literal
  | afterRBrace
  | field (acc : List Char)
deriving DecidableEq

/-- Python `template.format(**context)` on simple replacement fields
(`{name}`, the doubled-brace escapes, and the error cases).  All-digit or
empty field names take the Python positional-argument `IndexError` path.
Structural recursion on the character list, so terms evaluate by `decide`. -/
def pyFmt (ctx : Ctx) : List Char → FmtMode → Except FmtErr (List Char)
  | [], .literal => .ok []
  | [], .afterRBrace => .error .singleRBrace
  | [], .field _ => .error .unclosedField
  | c :: rest, .literal =>
    if c = lbrace then pyFmt ctx rest (.field [])
    else if c = rbrace then pyFmt ctx rest .afterRBrace
    else (pyFmt ctx rest .literal).map (fun out => c :: out)
  | c :: rest, .afterRBrace =>
    if c = rbrace then (pyFmt ctx rest .literal).map (fun out => rbrace :: out)
    else .error .singleRBrace
  | c :: rest, .field acc =>
    if c = rbrace then
      let name := acc.reverse
      if name.all Char.isDigit then .error .indexError
      else
        match List.lookup (String.mk name) ctx with
        | Option.none => .error (.keyError (String.mk name))
        | some v => (pyFmt ctx rest .literal).map (fun out => (pyStr v).toList ++ out)
    else if c = lbrace then
      if acc.isEmpty then (pyFmt ctx rest .literal).map (fun out => lbrace :: out)
      else .error .fieldLBrace
    else pyFmt ctx rest (.field (c :: acc))

/-- The literal token `{name}` as a character list. -/
def placeholderToken (name : String) : List Char :=
  lbrace :: name.toList ++ [rbrace]

deriving instance DecidableEq for Except

set_option maxRecDepth 40000

namespace NotificationService

/-- Table `ROLE_NOTIFICATION_PREFERENCES` from `service.py`: which notification
types each role receives. -/
def ROLE_NOTIFICATION_PREFERENCES : List (String × List String) :=
  [("designer",
    ["NEW_PROJECT", "NEW_SUBTASK", "STATUS_CHANGE", "COMMENT_ADDED",
     "REPLY_ADDED", "COMMENT_RESOLVED", "ATTACHMENT_ADDED"]),
   ("print_manager",
    ["STATUS_CHANGE", "SUBTASK_UPDATE", "SUBTASK_SPECS_UPDATE",
     "COMMENT_ADDED", "ATTACHMENT_ADDED"]),
   ("admin",
    ["NEW_PROJECT", "NEW_SUBTASK", "STATUS_CHANGE", "COMMENT_ADDED",
     "SUBTASK_UPDATE", "ATTACHMENT_ADDED"])]

/-- Table `ROLE_RELEVANT_STATUSES` from `service.py`: the status labels relevant
to each role for `STATUS_CHANGE` notifications. -/
def ROLE_RELEVANT_STATUSES : List (String × List String) :=
  [("designer",
    ["Has Comments", "Awaiting Materials", "On Hold", "Cancelled"]),
   ("print_manager",
    ["Design Completed", "Ready for Montage", "In Montage",
     "Montage Completed", "In Printing", "Ready for Delivery"]),
   ("admin",
    ["Ready for Delivery", "Delivered", "Cancelled", "On Hold"])]

/-- Table `DEFAULT_TEMPLATES` from `service.py`. -/
def DEFAULT_TEMPLATES : List (String × String) :=
  [("NEW_PROJECT", "🆕 *مشروع جديد*\n\n📌 المشروع: {taskTitle}\n👤 العميل: {clientName}\n🔢 كود العميل: {clientCode}\n📊 الحالة: {status}\n⚡ الأولوية: {urgency}"),
   ("NEW_SUBTASK", "➕ *بند جديد*\n\n📋 البند: {taskTitle}\n👤 العميل: {clientName}\n🔢 كود العميل: {clientCode}\n📊 الحالة: {status}"),
   ("SUBTASK_UPDATE", "✏️ *تعديل بند*\n\n📋 البند: {taskTitle}\n👤 العميل: {clientName}\n🔢 كود العميل: {clientCode}\n📏 المقاس: {size}\n🖨️ نوع الطباعة: {printingType}"),
   ("SUBTASK_SPECS_UPDATE", "⚙️ *تعديل مواصفات*\n\n📋 البند: {taskTitle}\n👤 العميل: {clientName}\n🔢 كود العميل: {clientCode}\n📏 المقاس: {size}\n🖨️ نوع الطباعة: {printingType}"),
   ("STATUS_CHANGE", "🔄 *تحديث الحالة*\n\n📋 البند: {taskTitle}\n👤 العميل: {clientName}\n🔢 كود العميل: {clientCode}\n✅ {statusMessage}\n📊 الحالة السابقة: {oldStatus}\n📊 الحالة الجديدة: {newStatus}"),
   ("COMMENT_ADDED", "💬 *ملاحظة جديدة*\n\n📋 {taskLabel}: {taskTitle}\n👤 العميل: {clientName}\n🔢 كود العميل: {clientCode}\n📝 الملاحظة: {commentText}\n🔢 عدد الملاحظات: {commentCount}"),
   ("REPLY_ADDED", "↩️ *رد جديد*\n\n📋 {taskLabel}: {taskTitle}\n👤 العميل: {clientName}\n🔢 كود العميل: {clientCode}\n💬 الرد: {commentText}"),
   ("COMMENT_RESOLVED", "✅ *تم حل الملاحظة*\n\n📋 {taskLabel}: {taskTitle}\n👤 العميل: {clientName}\n🔢 كود العميل: {clientCode}\n🎉 تم حل الملاحظة بنجاح"),
   ("ATTACHMENT_ADDED", "📎 *مرفقات جديدة*\n\n📋 {taskLabel}: {taskTitle}\n👤 العميل: {clientName}\n🔢 كود العميل: {clientCode}\n📁 عدد المرفقات: {attachmentCount}\n📄 الملفات: {attachmentNames}")]

/-- Table `REQUIRED_PLACEHOLDERS` from `service.py`. -/
def REQUIRED_PLACEHOLDERS : List (String × List String) :=
  [("NEW_PROJECT", ["taskTitle", "clientName", "clientCode", "status", "urgency"]),
   ("NEW_SUBTASK", ["taskTitle", "clientName", "clientCode", "status"]),
   ("SUBTASK_UPDATE", ["taskTitle", "clientName", "clientCode", "size", "printingType"]),
   ("SUBTASK_SPECS_UPDATE", ["taskTitle", "clientName", "clientCode", "size", "printingType"]),
   ("STATUS_CHANGE", ["taskTitle", "clientName", "clientCode", "statusMessage", "oldStatus", "newStatus"]),
   ("COMMENT_ADDED", ["taskTitle", "clientName", "clientCode", "taskLabel", "commentText", "commentCount"]),
   ("REPLY_ADDED", ["taskTitle", "clientName", "clientCode", "taskLabel", "commentText"]),
   ("COMMENT_RESOLVED", ["taskTitle", "clientName", "clientCode", "taskLabel"]),
   ("ATTACHMENT_ADDED", ["taskTitle", "clientName", "clientCode", "taskLabel", "attachmentCount", "attachmentNames"])]

/-- Rendering errors raised by `render_template` (all are `ValueError` in the
source; the constructors record which message is built). -/
inductive RenderError where
  | invalidTemplateType (t : String)
  | missingPlaceholders (t : String) (missing : List String)
  | undefinedPlaceholder (key : String)
  | renderFailure
deriving DecidableEq

/-- Model of `NotificationService.render_template` from `service.py`:
`templates = custom_templates if custom_templates else DEFAULT_TEMPLATES`,
unknown-type check, required-placeholder check, then `template.format(**context)`
with `KeyError` mapped to the undefined-placeholder error and every other
exception to the generic rendering error. -/
def render_template (template_type : String) (context : Ctx)
    (custom_templates : List (String × String)) : Except RenderError String :=
  let templates := if custom_templates.isEmpty then DEFAULT_TEMPLATES else custom_templates
  match List.lookup template_type templates with
  | Option.none => .error (.invalidTemplateType template_type)
  | some template =>
    let required := (List.lookup template_type REQUIRED_PLACEHOLDERS).getD []
    let missing := required.filter (fun key => (List.lookup key context).isNone)
    if missing.isEmpty then
      match pyFmt context template.toList .literal with
      | .ok out => .ok (String.mk out)
      | .error (.keyError k) => .error (.undefinedPlaceholder k)
      | .error _ => .error .renderFailure
    else .error (.missingPlaceholders template_type missing)

/-- Model of `NotificationService.validate_template` from `service.py`: every required
placeholder must occur as a literal `{name}` token in the template text. -/
def validate_template (template : String) (template_type : String) : Bool :=
  match List.lookup template_type REQUIRED_PLACEHOLDERS with
  | Option.none => false
  | some required =>
    required.all (fun placeholder => decide ((placeholderToken placeholder) <:+: template.toList))

end NotificationService

/-- One configured WhatsApp recipient dict.  Absent dict keys are modelled by
the source's own defaults: `phone`/`number`/`apiKey` default to `""` (the
value `get` returns), `role` is `Option String` (`.get` with default
`"admin"` at use sites), `userId` defaults to Python `None`, and
`preferences` to the empty dict (absent and `{}` are both falsy). -/
structure Recipient where
  phone : String
  number : String
  apiKey : String
  role : Option String
  userId : PyVal
  preferences : List (String × PyVal)
deriving DecidableEq

/-- Role lookup of a recipient dict, defaulting to admin when the key is
absent, from `filter_recipients_by_role`. -/
def recipientRole (recipient : Recipient) : String :=
  recipient.role.getD "admin"

/-- Phone fallback used by `send_to_groups` and the signal handlers: the
phone key if non-empty, else the legacy number key. -/
def effectivePhone (recipient : Recipient) : String :=
  if recipient.phone = "" then recipient.number else recipient.phone

/-- Python `value in listOfStrings` for a `PyVal` (`==` against each
element; only a string can equal a string). -/
def pyInStrList (v : PyVal) (l : List String) : Bool :=
  match v with
  | .str s => l.contains s
  | _ => false

namespace NotificationService

/-- Model of `NotificationService.should_send_to_role` from `service.py`. -/
def should_send_to_role (template_type role : String) (context : Ctx) : Bool :=
  if !(((List.lookup role ROLE_NOTIFICATION_PREFERENCES).getD []).contains template_type) then
    false
  else if template_type = "STATUS_CHANGE" && !context.isEmpty then
    let new_status := (List.lookup "newStatus" context).getD (PyVal.str "")
    let relevant_statuses := (List.lookup role ROLE_RELEVANT_STATUSES).getD []
    if role = "designer" || role = "print_manager" then
      pyInStrList new_status relevant_statuses
    else true
  else true

/-- Phone normalization used by the self-exclusion check: remove every
space and every plus sign (not only a leading plus). -/
def normalize_phone (s : String) : String :=
  (s.replace " " "").replace "+" ""

/-- Model of `NotificationService.should_exclude_action_creator` from `service.py`. -/
def should_exclude_action_creator (recipient : Recipient) (context : Ctx) : Bool :=
  let created_by_user_id := (List.lookup "created_by_user_id" context).getD PyVal.none
  let created_by_phone := (List.lookup "created_by_phone" context).getD PyVal.none
  if !truthy created_by_user_id && !truthy created_by_phone then false
  else if truthy created_by_user_id && truthy recipient.userId
      && pyStr created_by_user_id = pyStr recipient.userId then true
  else
    let recipient_phone := normalize_phone recipient.phone
    if truthy created_by_phone && recipient_phone = normalize_phone (pyStr created_by_phone) then
      true
    else false

/-- Model of `NotificationService.check_user_preferences` from `service.py`.  The
source returns the raw preference value (any object) or the literal `True`;
the caller tests it for truthiness. -/
def check_user_preferences (recipient : Recipient) (template_type : String)
    (context : Ctx) : PyVal :=
  let preferences := recipient.preferences
  if preferences.isEmpty then PyVal.bool true
  else if template_type = "STATUS_CHANGE" && !context.isEmpty then
    let new_status := (List.lookup "newStatus" context).getD PyVal.none
    if truthy new_status then
      let status_key := "STATUS_" ++ pyStr new_status
      match List.lookup status_key preferences with
      | some v => v
      | Option.none => (List.lookup "STATUS_CHANGE" preferences).getD (PyVal.bool true)
    else (List.lookup template_type preferences).getD (PyVal.bool true)
  else (List.lookup template_type preferences).getD (PyVal.bool true)

/-- Model of `NotificationService.filter_recipients_by_role` from `service.py`: keep,
in order, the recipients that pass role relevance, are not the action
creator, and have the notification enabled in their preferences. -/
def filter_recipients_by_role (template_type : String) (recipients : List Recipient)
    (context : Ctx) : List Recipient :=
  recipients.filter (fun recipient =>
    should_send_to_role template_type (recipientRole recipient) context
    && !should_exclude_action_creator recipient context
    && truthy (check_user_preferences recipient template_type context))

/-- The outcome the outbound endpoint produces for one attempt: an HTTP
status code, or one of the exception kinds the source catches. -/
inductive Outcome where
  | status (code : Nat)
  | timeoutExc
  | requestExc
  | otherExc
deriving DecidableEq

/-- Success test `response.status_code == 200` (an exception is not a success). -/
def attemptOk : Outcome → Bool
  | .status code => code == 200
  | _ => false

/-- Observable behaviour of one `send_notification` call: the returned
boolean, the number of HTTP attempts performed, and the argument of each
`time.sleep` call in order. -/
structure SendTrace where
  result : Bool
  attempts : Nat
  sleeps : List Nat
deriving DecidableEq

/-- The retry loop `for attempt in range(retry_count + 1)` of
`send_notification`.  `attempt` is the current 0-based attempt index and the
last argument the number of loop iterations left; on a non-200 outcome with
iterations remaining it sleeps `2 ^ attempt` seconds and retries. -/
def sendLoop (endpoint : Nat → Outcome) (attempt : Nat) : Nat → SendTrace
  | 0 => ⟨false, 0, []⟩
  | remaining + 1 =>
    if attemptOk (endpoint attempt) then ⟨true, 1, []⟩
    else if remaining = 0 then ⟨false, 1, []⟩
    else
      let rest := sendLoop endpoint (attempt + 1) remaining
      ⟨rest.result, rest.attempts + 1, 2 ^ attempt :: rest.sleeps⟩

/-- Model of `NotificationService.send_notification` from `service.py`: missing
parameters short-circuit to `False`; otherwise up to `retry_count + 1`
attempts with exponential backoff, `True` on the first HTTP 200. -/
def send_notification (phone_number api_key message : String) (retry_count : Nat)
    (endpoint : Nat → Outcome) : SendTrace :=
  if phone_number = "" || api_key = "" || message = "" then ⟨false, 0, []⟩
  else sendLoop endpoint 0 (retry_count + 1)

/-- Insertion into a Python dict modelled as an association list: an existing
key is updated in place, a new key is appended. -/
def dictInsert (m : List (String × Bool)) (k : String) (v : Bool) : List (String × Bool) :=
  if m.any (fun p => p.1 = k) then m.map (fun p => if p.1 = k then (k, v) else p)
  else m ++ [(k, v)]

/-- Model of `NotificationService.send_to_groups` from `service.py`: one
`send_notification` per recipient in list order (retry count 2), recipients
with a missing phone or API key recorded as `False` without an attempt.
The endpoint oracle is keyed by the phone of the recipient. -/
def send_to_groups (groups : List Recipient) (message : String)
    (endpoint : String → Nat → Outcome) : List (String × Bool) :=
  if groups.isEmpty || message = "" then []
  else
    groups.foldl (fun results group =>
      let phone := effectivePhone group
      if phone = "" || group.apiKey = "" then dictInsert results phone false
      else
        dictInsert results phone
          (send_notification phone group.apiKey message 2 (endpoint phone)).result)
      []

/-- The `UnifiedSettings` row read by `get_settings`.  A Python `None` in
`notification_templates` and an empty mapping are both falsy where the value
is used, and both are modelled as `[]`. -/
structure UnifiedSettings where
  whatsapp_numbers : List Recipient
  notifications_enabled : Bool
  notification_templates : List (String × String)
deriving DecidableEq

/-- What the settings store does when queried: returns the row (or no row),
or raises. -/
inductive SettingsFetch where
  | ok (row : Option UnifiedSettings)
  | err
deriving DecidableEq

/-- Model of `NotificationService.get_settings` from `service.py`: a missing row or
any exception yields `([], False, None)`. -/
def get_settings : SettingsFetch → List Recipient × Bool × List (String × String)
  | .err => ([], false, [])
  | .ok Option.none => ([], false, [])
  | .ok (some row) =>
    (row.whatsapp_numbers, row.notifications_enabled, row.notification_templates)

/-- Model of `NotificationService.send_task_notification` from `service.py`: load
settings, short-circuit on disabled notifications / no recipients / empty
filter result, render once, send to the filtered recipients, and succeed iff
any send succeeded.  A rendering error (`ValueError`) is caught and yields
`False`. -/
def send_task_notification (template_type : String) (context : Ctx)
    (store : SettingsFetch) (endpoint : String → Nat → Outcome) : Bool :=
  let cfg := get_settings store
  let whatsapp_numbers := cfg.1
  let notifications_enabled := cfg.2.1
  let custom_templates := cfg.2.2
  if !notifications_enabled then false
  else if whatsapp_numbers.isEmpty then false
  else
    let filtered_recipients := filter_recipients_by_role template_type whatsapp_numbers context
    if filtered_recipients.isEmpty then false
    else
      match render_template template_type context custom_templates with
      | .error _ => false
      | .ok message =>
        let results := send_to_groups filtered_recipients message endpoint
        results.any (fun p => p.2)

/-- The recipients to whom `send_task_notification` actually performs an
HTTP send: the survivors of `filter_recipients_by_role` that carry a phone
and an API key (mirroring the guards of `send_to_groups` and
`send_notification`); empty when any earlier step short-circuits. -/
def send_task_notification_sends (template_type : String) (context : Ctx)
    (store : SettingsFetch) : List Recipient :=
  let cfg := get_settings store
  if !cfg.2.1 then []
  else if cfg.1.isEmpty then []
  else
    let filtered_recipients := filter_recipients_by_role template_type cfg.1 context
    if filtered_recipients.isEmpty then []
    else
      match render_template template_type context cfg.2.2 with
      | .error _ => []
      | .ok message =>
        if message = "" then []
        else filtered_recipients.filter (fun r => !(effectivePhone r = "") && !(r.apiKey = ""))

end NotificationService

/-- The task fields the `notify_task_created` signal handler reads.  Django
foreign keys that may be absent are `Option`s; `urgency` models `instance.urgency or` the default label Normal, so the
empty string stands for a falsy value. -/
structure TaskInfo where
  title : String
  clientName : Option String
  clientCode : Option String
  statusLabel : Option String
  urgency : String
  hasParent : Bool
deriving DecidableEq

/-- The `NEW_PROJECT` context built by `notify_task_created` in
`tasks/signals.py` (missing client/status fields become the Arabic
placeholder string). -/
def new_project_context (task : TaskInfo) : Ctx :=
  [("taskTitle", PyVal.str task.title),
   ("clientName", PyVal.str (task.clientName.getD "غير محدد")),
   ("clientCode", PyVal.str (task.clientCode.getD "غير محدد")),
   ("status", PyVal.str (task.statusLabel.getD "غير محدد")),
   ("urgency", PyVal.str (if task.urgency = "" then "Normal" else task.urgency))]

/-- The recipients to whom the `post_save` signal handler
`notify_task_created` in `tasks/signals.py` sends the rendered message:
after the subtask / disabled / no-recipients / rendering guards, every
configured recipient with a phone and an API key.  The handler never calls
`filter_recipients_by_role`. -/
def notify_task_created_sends (task : TaskInfo) (store : NotificationService.SettingsFetch) :
    List Recipient :=
  if task.hasParent then []
  else
    let cfg := NotificationService.get_settings store
    if !cfg.2.1 then []
    else if cfg.1.isEmpty then []
    else
      match NotificationService.render_template "NEW_PROJECT" (new_project_context task) cfg.2.2 with
      | .error _ => []
      | .ok _ => cfg.1.filter (fun r => !(effectivePhone r = "") && !(r.apiKey = ""))

/-- Deleting a key from a context dict (`del context[k]` on a Python dict:
every binding of that key is gone, the rest are unchanged). -/
def removeKey (ctx : Ctx) (k : String) : Ctx :=
  ctx.filter (fun p => !(p.1 = k))

/-! Concrete instances used by counterexamples and witnesses. -/

/-- A complete `NEW_PROJECT` context. -/
def fullNewProjectCtx : Ctx :=
  [("taskTitle", PyVal.str "Logo"), ("clientName", PyVal.str "Acme"),
   ("clientCode", PyVal.str "C-1"), ("status", PyVal.str "Pending"),
   ("urgency", PyVal.str "Normal")]

/-- A complete `NEW_PROJECT` context whose `taskTitle` value is itself the
literal token `{urgency}`. -/
def tokenValueCtx : Ctx :=
  [("taskTitle", PyVal.str "{urgency}"), ("clientName", PyVal.str "Acme"),
   ("clientCode", PyVal.str "C-1"), ("status", PyVal.str "Pending"),
   ("urgency", PyVal.str "Normal")]

/-- A print-manager recipient with a phone and an API key. -/
def pmRecipient : Recipient := ⟨"201111", "", "key1", some "print_manager", PyVal.none, []⟩

/-- A settings store holding only `pmRecipient`, notifications enabled, no
custom templates. -/
def pmStore : NotificationService.SettingsFetch := .ok (some ⟨[pmRecipient], true, []⟩)

/-- An admin recipient with a phone and an API key. -/
def adminRecipient : Recipient := ⟨"202222", "", "key2", some "admin", PyVal.none, []⟩

/-- A settings store holding only `adminRecipient`. -/
def adminStore : NotificationService.SettingsFetch := .ok (some ⟨[adminRecipient], true, []⟩)

/-- A disabled settings store with no recipients. -/
def disabledStore : NotificationService.SettingsFetch := .ok (some ⟨[], false, []⟩)

/-- A parent task with client, code, status and urgency set. -/
def sampleTask : TaskInfo := ⟨"T", some "Acme", some "C-1", some "Pending", "Normal", false⟩

/-- An admin recipient whose `userId` is the integer `0` (falsy in Python). -/
def zeroIdRecipient : Recipient := ⟨"203333", "", "key3", some "admin", PyVal.int 0, []⟩

/-- A context whose `created_by_user_id` is the string `"0"` (truthy), which
coincides with `str(0)`. -/
def zeroCreatorCtx : Ctx := [("created_by_user_id", PyVal.str "0")]

/-- A designer recipient with empty preferences. -/
def designerRecipient : Recipient := ⟨"204444", "", "key4", some "designer", PyVal.none, []⟩

/-- An endpoint that always answers HTTP 200. -/
def okEndpoint : String → Nat → NotificationService.Outcome := fun _ _ => .status 200


/-- A character list containing neither brace character. -/
def braceFree (l : List Char) : Prop := lbrace ∉ l ∧ rbrace ∉ l

instance (l : List Char) : Decidable (braceFree l) :=
  inferInstanceAs (Decidable (_ ∧ _))

/-- A character list with no doubled-brace escape (`\x7b\x7b` or `\x7d\x7d`). -/
def noEscapes (l : List Char) : Prop :=
  ¬ ([lbrace, lbrace] <:+: l) ∧ ¬ ([rbrace, rbrace] <:+: l)

/-- The replacement-field names of a template in order, mirroring the parse
of `pyFmt` (`none` for a malformed template, a positional field, or a
doubled-brace escape in field position). -/
def fmtNames : List Char → FmtMode → Option (List String)
  | [], .literal => some []
  | [], .afterRBrace => Option.none
  | [], .field _ => Option.none
  | c :: rest, .literal =>
    if c = lbrace then fmtNames rest (.field [])
    else if c = rbrace then fmtNames rest .afterRBrace
    else fmtNames rest .literal
  | c :: rest, .afterRBrace =>
    if c = rbrace then fmtNames rest .literal
    else Option.none
  | c :: rest, .field acc =>
    if c = rbrace then
      let name := acc.reverse
      if name.all Char.isDigit then Option.none
      else (fmtNames rest .literal).map (fun ns => String.mk name :: ns)
    else if c = lbrace then
      if acc.isEmpty then fmtNames rest .literal
      else Option.none
    else fmtNames rest (.field (c :: acc))

/-- Decidable bundle about the built-in templates: each default template
parses, every field name it uses is among the required placeholders of its
type,
and its text has no doubled-brace escape. -/
def defaultTemplatesOk : Bool :=
  NotificationService.DEFAULT_TEMPLATES.all (fun p =>
    (match fmtNames p.2.toList .literal with
     | some ns => ns.all (fun n =>
         ((List.lookup p.1 NotificationService.REQUIRED_PLACEHOLDERS).getD []).contains n)
     | Option.none => false)
    && !(decide ([lbrace, lbrace] <:+: p.2.toList))
    && !(decide ([rbrace, rbrace] <:+: p.2.toList)))

/-! Generic helper lemmas about association lists. -/

theorem lookup_mem {β : Type} (l : List (String × β)) (k : String) (v : β)
    (h : List.lookup k l = some v) : (k, v) ∈ l := by
  induction l with
  | nil => simp [List.lookup] at h
  | cons p rest ih =>
    rw [List.lookup] at h
    by_cases hk : k = p.1
    · subst hk
      simp at h
      subst h
      exact List.mem_cons_self _ _
    · have hb : (k == p.1) = false := beq_false_of_ne hk
      rw [hb] at h
      exact List.mem_cons_of_mem _ (ih h)

theorem lookup_removeKey (ctx : Ctx) (j k : String) :
    List.lookup j (removeKey ctx k)
      = if j = k then Option.none else List.lookup j ctx := by
  induction ctx with
  | nil => simp [removeKey]
  | cons p rest ih =>
    by_cases hp : p.1 = k
    · have : removeKey (p :: rest) k = removeKey rest k := by
        simp [removeKey, List.filter, hp]
      rw [this, ih]
      by_cases hj : j = k
      · simp [hj]
      · have hb : (j == p.1) = false := beq_false_of_ne (by rw [hp]; exact hj)
        simp [hj, List.lookup, hb]
    · have : removeKey (p :: rest) k = p :: removeKey rest k := by
        simp [removeKey, List.filter, hp]
      rw [this]
      by_cases hj : j = p.1
      · have hb : (j == p.1) = true := beq_iff_eq.mpr hj
        have hjk : ¬ j = k := by rw [hj]; exact hp
        simp [List.lookup, hb, hjk]
      · have hb : (j == p.1) = false := beq_false_of_ne hj
        simp only [List.lookup, hb]
        exact ih

theorem filter_eq_singleton_of_nodup {α : Type} (l : List α) (k : α) (p : α → Bool)
    (hnd : l.Nodup) (hk : k ∈ l) (hp : ∀ x ∈ l, (p x = true ↔ x = k)) :
    l.filter p = [k] := by
  induction l with
  | nil => cases hk
  | cons a rest ih =>
    rw [List.nodup_cons] at hnd
    rcases List.mem_cons.mp hk with hak | hkr
    · have hak : a = k := hak.symm
      have hpa : p a = true := (hp a (List.mem_cons_self _ _)).mpr hak
      have hrest : rest.filter p = [] := by
        refine List.filter_eq_nil_iff.mpr ?_
        intro x hx hpx
        have hxk : x = k := (hp x (List.mem_cons_of_mem _ hx)).mp hpx
        exact hnd.1 (by rw [hak, ← hxk]; exact hx)
      have hpk : p k = true := hak ▸ hpa
      simp [List.filter_cons, hpk, hrest, hak]
    · have hak : ¬ a = k := by
        intro h
        exact hnd.1 (h ▸ hkr)
      have hpa : p a = false := by
        cases hq : p a
        · rfl
        · exact absurd ((hp a (List.mem_cons_self _ _)).mp hq) hak
      simp only [List.filter, hpa]
      exact ih hnd.2 hkr (fun x hx => hp x (List.mem_cons_of_mem _ hx))

/-- Every required-placeholder list in the table is duplicate-free. -/
theorem required_placeholders_nodup :
    ∀ p ∈ NotificationService.REQUIRED_PLACEHOLDERS, p.2.Nodup := by decide

/-! ## C1: per-type fallback to default templates -/

/-- Claim C1 counterexample.  `NEW_PROJECT` is recognized by the built-in
defaults (rendering with no custom templates succeeds), yet rendering with a
non-empty custom mapping that has no `NEW_PROJECT` entry does not fall back
to the built-in default: it fails with the unknown-template-type error. -/
theorem render_custom_lacking_type_cex :
    (NotificationService.render_template "NEW_PROJECT" fullNewProjectCtx []).isOk = true
    ∧ NotificationService.render_template "NEW_PROJECT" fullNewProjectCtx
        [("STATUS_CHANGE", "x")]
      = .error (.invalidTemplateType "NEW_PROJECT") := by
  constructor
  · decide
  · decide

/-- Claim C1 (amended).  The fallback is per-mapping, not per-type: whenever
the custom-template mapping is non-empty and has no entry for `t`, rendering
fails with the unknown-template-type error for every context — even when the
built-in defaults recognize `t`. -/
theorem render_custom_nonempty_no_fallback (t : String) (context : Ctx)
    (ct : List (String × String)) (hne : ct ≠ []) (hmiss : List.lookup t ct = Option.none) :
    NotificationService.render_template t context ct
      = .error (.invalidTemplateType t) := by
  have hemp : ct.isEmpty = false := List.isEmpty_eq_false.mpr hne
  unfold NotificationService.render_template
  simp [hemp, hmiss]

/-- Claim C1 witness. -/
theorem render_custom_nonempty_no_fallback_witness :
    NotificationService.render_template "NEW_PROJECT" fullNewProjectCtx [("STATUS_CHANGE", "x")]
      = .error (.invalidTemplateType "NEW_PROJECT") :=
  render_custom_nonempty_no_fallback "NEW_PROJECT" fullNewProjectCtx
    [("STATUS_CHANGE", "x")] (by decide) (by decide)

/-! ## C4: missing required placeholders are detected before substitution -/

/-- Claim C4.  For a type recognized by the defaults: if any required key is
absent from the context, rendering fails with the missing-placeholder error
listing exactly the absent required keys (in table order); in particular,
deleting any single required key from a complete context makes rendering
fail naming exactly that key. -/
theorem render_missing_placeholder_spec (t tmpl : String) (context : Ctx) (k : String)
    (htmpl : List.lookup t NotificationService.DEFAULT_TEMPLATES = some tmpl) :
    (((List.lookup t NotificationService.REQUIRED_PLACEHOLDERS).getD []).filter
        (fun key => (List.lookup key context).isNone) ≠ [] →
      NotificationService.render_template t context []
        = .error (.missingPlaceholders t
            (((List.lookup t NotificationService.REQUIRED_PLACEHOLDERS).getD []).filter
              (fun key => (List.lookup key context).isNone))))
    ∧ (k ∈ (List.lookup t NotificationService.REQUIRED_PLACEHOLDERS).getD [] →
       (∀ j ∈ (List.lookup t NotificationService.REQUIRED_PLACEHOLDERS).getD [],
          (List.lookup j context).isSome) →
       NotificationService.render_template t (removeKey context k) []
         = .error (.missingPlaceholders t [k])) := by
  constructor
  · intro hne
    have hemp := List.isEmpty_eq_false.mpr hne
    unfold NotificationService.render_template
    simp [htmpl, hemp]
  · intro hk hcov
    cases hreq : List.lookup t NotificationService.REQUIRED_PLACEHOLDERS with
    | none => rw [hreq] at hk; simp at hk
    | some req =>
      rw [hreq] at hk hcov
      simp only [Option.getD_some] at hk hcov
      have hnd : req.Nodup := required_placeholders_nodup (t, req) (lookup_mem _ _ _ hreq)
      have hmiss : req.filter (fun key => (List.lookup key (removeKey context k)).isNone) = [k] := by
        refine filter_eq_singleton_of_nodup req k _ hnd hk ?_
        intro x hx
        rw [lookup_removeKey]
        by_cases hxk : x = k
        · simp [hxk]
        · have hse := hcov x hx
          cases hlx : List.lookup x context with
          | none => rw [hlx] at hse; simp at hse
          | some v => simp [hxk, hlx]
      unfold NotificationService.render_template
      simp [htmpl, hreq, hmiss]

/-- Claim C4 witness. -/
theorem render_missing_placeholder_spec_witness :
    NotificationService.render_template "NEW_PROJECT" [("taskTitle", PyVal.str "Logo")] []
      = .error (.missingPlaceholders "NEW_PROJECT"
          ["clientName", "clientCode", "status", "urgency"])
    ∧ NotificationService.render_template "NEW_PROJECT" (removeKey fullNewProjectCtx "status") []
      = .error (.missingPlaceholders "NEW_PROJECT" ["status"]) := by
  have h := render_missing_placeholder_spec "NEW_PROJECT"
    ((List.lookup "NEW_PROJECT" NotificationService.DEFAULT_TEMPLATES).getD "")
    [("taskTitle", PyVal.str "Logo")] "status" (by decide)
  refine ⟨(h.1 (by decide)).trans (by decide), ?_⟩
  have h2 := render_missing_placeholder_spec "NEW_PROJECT"
    ((List.lookup "NEW_PROJECT" NotificationService.DEFAULT_TEMPLATES).getD "")
    fullNewProjectCtx "status" (by decide)
  exact h2.2 (by decide) (by decide)

/-! ## C5: STATUS_CHANGE role gate -/

/-- Claim C5.  `filter` on `STATUS_CHANGE` with context `{newStatus: S}` never
returns a designer or print-manager recipient unless `S` is in the
relevant-status table of that role, and an admin passes the role-relevance stage of
`STATUS_CHANGE` unconditionally. -/
theorem filter_status_change_role_spec (recipients : List Recipient) (S : String)
    (r : Recipient) (context : Ctx)
    (hmem : r ∈ NotificationService.filter_recipients_by_role "STATUS_CHANGE" recipients
        [("newStatus", PyVal.str S)]) :
    (recipientRole r = "designer" →
      S ∈ (List.lookup "designer" NotificationService.ROLE_RELEVANT_STATUSES).getD [])
    ∧ (recipientRole r = "print_manager" →
      S ∈ (List.lookup "print_manager" NotificationService.ROLE_RELEVANT_STATUSES).getD [])
    ∧ NotificationService.should_send_to_role "STATUS_CHANGE" "admin" context = true := by
  unfold NotificationService.filter_recipients_by_role at hmem
  obtain ⟨-, hpred⟩ := List.mem_filter.mp hmem
  simp only [Bool.and_eq_true] at hpred
  obtain ⟨⟨hrole, -⟩, -⟩ := hpred
  refine ⟨?_, ?_, ?_⟩
  · intro hd
    rw [hd] at hrole
    have heval : NotificationService.should_send_to_role "STATUS_CHANGE" "designer"
        [("newStatus", PyVal.str S)]
        = (["Has Comments", "Awaiting Materials", "On Hold", "Cancelled"]).contains S := rfl
    rw [heval] at hrole
    exact List.mem_of_elem_eq_true hrole
  · intro hd
    rw [hd] at hrole
    have heval : NotificationService.should_send_to_role "STATUS_CHANGE" "print_manager"
        [("newStatus", PyVal.str S)]
        = (["Design Completed", "Ready for Montage", "In Montage", "Montage Completed",
            "In Printing", "Ready for Delivery"]).contains S := rfl
    rw [heval] at hrole
    exact List.mem_of_elem_eq_true hrole
  · simp [NotificationService.should_send_to_role]
    decide

/-- Claim C5 witness. -/
theorem filter_status_change_role_spec_witness :
    ("On Hold" ∈ (List.lookup "designer" NotificationService.ROLE_RELEVANT_STATUSES).getD []
     ∧ NotificationService.should_send_to_role "STATUS_CHANGE" "admin" [] = true) := by
  have h := filter_status_change_role_spec [designerRecipient] "On Hold" designerRecipient []
    (by decide)
  exact ⟨h.1 (by decide), h.2.2⟩

/-! ## C10: the STATUS_CHANGE status gate is skipped on an empty context -/

/-- Claim C10.  A designer or print-manager recipient passes the
role-relevance stage of `STATUS_CHANGE` when the context mapping is empty
(the relevant-status check is not reached), while a non-empty context with
no `newStatus` key fails it (the default empty-string status is in no
relevant-status table). -/
theorem status_gate_empty_context_spec (role : String) (context : Ctx)
    (hrole : role = "designer" ∨ role = "print_manager") :
    NotificationService.should_send_to_role "STATUS_CHANGE" role [] = true
    ∧ (context ≠ [] → List.lookup "newStatus" context = Option.none →
        NotificationService.should_send_to_role "STATUS_CHANGE" role context = false) := by
  rcases hrole with h | h <;> subst h <;>
    refine ⟨rfl, ?_⟩ <;>
    · intro hne hlook
      have hemp : context.isEmpty = false := List.isEmpty_eq_false.mpr hne
      simp [NotificationService.should_send_to_role, hemp, hlook, pyInStrList]
      decide

/-- Claim C10 witness. -/
theorem status_gate_empty_context_spec_witness :
    NotificationService.should_send_to_role "STATUS_CHANGE" "designer" [] = true
    ∧ NotificationService.should_send_to_role "STATUS_CHANGE" "designer"
        [("taskTitle", PyVal.str "T")] = false := by
  have h := status_gate_empty_context_spec "designer" [("taskTitle", PyVal.str "T")]
    (Or.inl rfl)
  exact ⟨h.1, h.2 (by decide) (by decide)⟩

/-! ## C6: self-exclusion by creator user id -/

/-- Claim C6 counterexample.  A recipient whose `userId` is the integer `0`
(falsy in Python) is returned by the filter even though its `userId` equals
the context's `created_by_user_id` (the truthy string `"0"`) under
string-coercion equality: the source skips the id comparison when either
side is falsy. -/
theorem filter_self_exclusion_cex :
    NotificationService.filter_recipients_by_role "NEW_PROJECT" [zeroIdRecipient] zeroCreatorCtx
      = [zeroIdRecipient]
    ∧ pyStr zeroIdRecipient.userId
        = pyStr ((List.lookup "created_by_user_id" zeroCreatorCtx).getD PyVal.none) := by
  constructor
  · decide
  · decide

/-- Claim C6 (amended).  When the `created_by_user_id` of the context and
the `userId` of the recipient are both truthy, the filter never returns a recipient
whose `userId` equals the creator id under string coercion. -/
theorem filter_self_exclusion_spec (t : String) (recipients : List Recipient)
    (context : Ctx) (r : Recipient) (v : PyVal)
    (hctx : List.lookup "created_by_user_id" context = some v)
    (hv : truthy v = true) (hu : truthy r.userId = true)
    (hmem : r ∈ NotificationService.filter_recipients_by_role t recipients context) :
    pyStr r.userId ≠ pyStr v := by
  intro heq
  unfold NotificationService.filter_recipients_by_role at hmem
  obtain ⟨-, hpred⟩ := List.mem_filter.mp hmem
  simp only [Bool.and_eq_true] at hpred
  obtain ⟨⟨-, hexc⟩, -⟩ := hpred
  rw [Bool.not_eq_eq_eq_not, Bool.not_true] at hexc
  apply absurd hexc
  simp [NotificationService.should_exclude_action_creator, hctx, hv, hu, heq]

/-- Claim C6 witness. -/
theorem filter_self_exclusion_spec_witness :
    pyStr adminRecipient.userId ≠ pyStr (PyVal.str "7") := by
  have h := filter_self_exclusion_spec "NEW_PROJECT"
    [⟨"202222", "", "key2", some "admin", PyVal.str "9", []⟩]
    [("created_by_user_id", PyVal.str "7")]
    ⟨"202222", "", "key2", some "admin", PyVal.str "9", []⟩
    (PyVal.str "7") (by decide) (by decide) (by decide) (by decide)
  intro heq
  exact h (by revert heq; decide)

/-! ## C7: the preference-check stage -/

/-- Claim C7.  Preference semantics of `check_user_preferences`: an empty (or
absent) preferences dict always passes; for `STATUS_CHANGE` with a truthy
`newStatus` in the context, the key `STATUS_{newStatus}` is consulted first,
falling back to the generic `STATUS_CHANGE` key, defaulting to `True`; for
any other type, `preferences[type]` is consulted with default `True`. -/
theorem check_user_preferences_spec (r : Recipient) (t : String) (context : Ctx) (ns : PyVal) :
    (r.preferences = [] →
      truthy (NotificationService.check_user_preferences r t context) = true)
    ∧ (List.lookup "newStatus" context = some ns → truthy ns = true →
        NotificationService.check_user_preferences r "STATUS_CHANGE" context
          = (match List.lookup ("STATUS_" ++ pyStr ns) r.preferences with
             | some v => v
             | Option.none =>
                 (List.lookup "STATUS_CHANGE" r.preferences).getD (PyVal.bool true)))
    ∧ (t ≠ "STATUS_CHANGE" →
        NotificationService.check_user_preferences r t context
          = (List.lookup t r.preferences).getD (PyVal.bool true)) := by
  refine ⟨?_, ?_, ?_⟩
  · intro hp
    simp [NotificationService.check_user_preferences, hp, truthy]
  · intro hns htr
    have hne : context ≠ [] := by
      intro h
      rw [h] at hns
      simp [List.lookup] at hns
    have hemp : context.isEmpty = false := List.isEmpty_eq_false.mpr hne
    by_cases hp : r.preferences.isEmpty
    · have hpnil : r.preferences = [] := List.isEmpty_iff.mp hp
      simp [NotificationService.check_user_preferences, hp, hpnil, List.lookup]
    · simp [NotificationService.check_user_preferences, hp, hemp, hns, htr]
  · intro ht
    by_cases hp : r.preferences.isEmpty
    · have hpnil : r.preferences = [] := List.isEmpty_iff.mp hp
      simp [NotificationService.check_user_preferences, hp, hpnil, List.lookup]
    · simp [NotificationService.check_user_preferences, hp, ht]

/-- Claim C7 witness. -/
theorem check_user_preferences_spec_witness :
    truthy (NotificationService.check_user_preferences designerRecipient "NEW_PROJECT"
        [("newStatus", PyVal.str "On Hold")]) = true
    ∧ NotificationService.check_user_preferences designerRecipient "STATUS_CHANGE"
        [("newStatus", PyVal.str "On Hold")] = PyVal.bool true
    ∧ NotificationService.check_user_preferences designerRecipient "NEW_PROJECT"
        [("newStatus", PyVal.str "On Hold")] = PyVal.bool true := by
  have h := check_user_preferences_spec designerRecipient "NEW_PROJECT"
    [("newStatus", PyVal.str "On Hold")] (PyVal.str "On Hold")
  exact ⟨h.1 rfl, (h.2.1 (by decide) (by decide)).trans (by decide),
    (h.2.2 (by decide)).trans (by decide)⟩

/-! ## C8: delivery retries, backoff, and result -/

theorem sendLoop_all_fail (endpoint : Nat → NotificationService.Outcome) :
    ∀ (n a : Nat), (∀ i, a ≤ i → i ≤ a + n → NotificationService.attemptOk (endpoint i) = false) →
      NotificationService.sendLoop endpoint a (n + 1)
        = ⟨false, n + 1, (List.range' a n).map (2 ^ ·)⟩ := by
  intro n
  induction n with
  | zero =>
    intro a h
    unfold NotificationService.sendLoop
    rw [h a (Nat.le_refl a) (Nat.le_refl a)]
    simp
  | succ m ih =>
    intro a h
    unfold NotificationService.sendLoop
    rw [h a (Nat.le_refl a) (Nat.le_add_right a (m + 1))]
    have hrest := ih (a + 1) (fun i h1 h2 => h i (Nat.le_of_succ_le h1) (by omega))
    simp only [Bool.false_eq_true, if_false, Nat.succ_ne_zero, hrest, List.range']
    simp [List.range'_succ]

theorem sendLoop_first_success (endpoint : Nat → NotificationService.Outcome) :
    ∀ (j a n : Nat), j < n →
      (∀ i, a ≤ i → i < a + j → NotificationService.attemptOk (endpoint i) = false) →
      NotificationService.attemptOk (endpoint (a + j)) = true →
      NotificationService.sendLoop endpoint a n
        = ⟨true, j + 1, (List.range' a j).map (2 ^ ·)⟩ := by
  intro j
  induction j with
  | zero =>
    intro a n hn hfail hok
    cases n with
    | zero => omega
    | succ m =>
      unfold NotificationService.sendLoop
      rw [show a + 0 = a from rfl] at hok
      rw [hok]
      simp
  | succ i ih =>
    intro a n hn hfail hok
    cases n with
    | zero => omega
    | succ m =>
      unfold NotificationService.sendLoop
      rw [hfail a (Nat.le_refl a) (by omega)]
      have hm : ¬ m = 0 := by omega
      have hrest := ih (a + 1) m (by omega)
        (fun x h1 h2 => hfail x (Nat.le_of_succ_le h1) (by omega))
        (by rw [show a + 1 + i = a + (i + 1) from by omega]; exact hok)
      simp only [Bool.false_eq_true, if_false, hm, hrest]
      simp [List.range'_succ]

/-- Claim C8.  With non-empty phone, API key and message: if every attempt
fails (non-200 status or a caught exception), `send_notification` makes
exactly `retry_count + 1` attempts, sleeps `2 ^ attemptIndex` seconds
between consecutive attempts (none after the last), and returns `False`;
if attempt `k` is the first to answer HTTP 200, it returns `True` after
exactly `k + 1` attempts. -/
theorem send_notification_retry_spec (phone api_key message : String) (rc : Nat)
    (endpoint : Nat → NotificationService.Outcome) (k : Nat)
    (hp : phone ≠ "") (ha : api_key ≠ "") (hm : message ≠ "") :
    ((∀ i, i ≤ rc → NotificationService.attemptOk (endpoint i) = false) →
      NotificationService.send_notification phone api_key message rc endpoint
        = ⟨false, rc + 1, (List.range rc).map (2 ^ ·)⟩)
    ∧ (k ≤ rc → NotificationService.attemptOk (endpoint k) = true →
       (∀ i, i < k → NotificationService.attemptOk (endpoint i) = false) →
       NotificationService.send_notification phone api_key message rc endpoint
         = ⟨true, k + 1, (List.range k).map (2 ^ ·)⟩) := by
  constructor
  · intro hfail
    unfold NotificationService.send_notification
    simp only [hp, ha, hm, decide_eq_true_eq]
    rw [if_neg (by simp [hp, ha, hm])]
    rw [sendLoop_all_fail endpoint rc 0 (fun i _ h2 => hfail i (by omega))]
    rw [List.range_eq_range' rc]
  · intro hk hok hfail
    unfold NotificationService.send_notification
    rw [if_neg (by simp [hp, ha, hm])]
    rw [sendLoop_first_success endpoint k 0 (rc + 1) (by omega)
      (fun i _ h2 => hfail i (by omega)) (by rw [Nat.zero_add]; exact hok)]
    rw [List.range_eq_range' k]

/-- Claim C8 witness: an endpoint that always answers HTTP 500 gives 3
attempts, sleeps `[1, 2]`, and `False`; an endpoint that answers 200 on the
second attempt gives `True` after exactly 2 attempts and one 1-second
sleep. -/
theorem send_notification_retry_spec_witness :
    NotificationService.send_notification "201234" "apikey" "msg" 2 (fun _ => .status 500)
      = ⟨false, 3, [1, 2]⟩
    ∧ NotificationService.send_notification "201234" "apikey" "msg" 2
        (fun i => if i = 1 then .status 200 else .status 500)
      = ⟨true, 2, [1]⟩ := by
  constructor
  · have h := (send_notification_retry_spec "201234" "apikey" "msg" 2 (fun _ => .status 500) 0
      (by decide) (by decide) (by decide)).1 (fun i _ => rfl)
    exact h.trans (by decide)
  · have h := (send_notification_retry_spec "201234" "apikey" "msg" 2
      (fun i => if i = 1 then .status 200 else .status 500) 1
      (by decide) (by decide) (by decide)).2 (by omega) (by decide)
      (fun i hi => by
        have : i = 0 := by omega
        subst this
        rfl)
    exact h.trans (by decide)

/-! ## C9: dispatch result semantics -/

/-- Claim C9.  `send_task_notification` returns `False` immediately — for
every endpoint, hence with no rendering or delivery influence — when the
settings store raises (treated as disabled), when notifications are
disabled, when no recipients are configured, or when the filter leaves
none; otherwise it returns `True` iff at least one per-recipient delivery
of the batch succeeded. -/
theorem dispatch_result_spec (t : String) (context : Ctx)
    (store : NotificationService.SettingsFetch)
    (endpoint : String → Nat → NotificationService.Outcome) :
    NotificationService.get_settings .err = ([], false, [])
    ∧ ((NotificationService.get_settings store).2.1 = false →
        NotificationService.send_task_notification t context store endpoint = false)
    ∧ ((NotificationService.get_settings store).1.isEmpty = true →
        NotificationService.send_task_notification t context store endpoint = false)
    ∧ ((NotificationService.filter_recipients_by_role t
          (NotificationService.get_settings store).1 context).isEmpty = true →
        NotificationService.send_task_notification t context store endpoint = false)
    ∧ (NotificationService.send_task_notification t context store endpoint = true ↔
        (NotificationService.get_settings store).2.1 = true
        ∧ (NotificationService.get_settings store).1.isEmpty = false
        ∧ (NotificationService.filter_recipients_by_role t
            (NotificationService.get_settings store).1 context).isEmpty = false
        ∧ ∃ m, NotificationService.render_template t context
                 (NotificationService.get_settings store).2.2 = .ok m
             ∧ (NotificationService.send_to_groups
                  (NotificationService.filter_recipients_by_role t
                    (NotificationService.get_settings store).1 context)
                  m endpoint).any (fun p => p.2) = true) := by
  refine ⟨rfl, ?_, ?_, ?_, ?_⟩
  · intro h
    simp [NotificationService.send_task_notification, h]
  · intro h
    simp [NotificationService.send_task_notification, h]
  · intro h
    simp [NotificationService.send_task_notification, h]
  · by_cases he : (NotificationService.get_settings store).2.1
    · by_cases hn : (NotificationService.get_settings store).1.isEmpty
      · simp [NotificationService.send_task_notification, he, hn]
      · by_cases hf : (NotificationService.filter_recipients_by_role t
            (NotificationService.get_settings store).1 context).isEmpty
        · simp [NotificationService.send_task_notification, he, hn, hf]
        · cases hr : NotificationService.render_template t context
              (NotificationService.get_settings store).2.2 with
          | error e =>
            simp [NotificationService.send_task_notification, he, hn, hf, hr]
          | ok m =>
            have hd : NotificationService.send_task_notification t context store endpoint
                = (NotificationService.send_to_groups
                    (NotificationService.filter_recipients_by_role t
                      (NotificationService.get_settings store).1 context)
                    m endpoint).any (fun p => p.2) := by
              simp [NotificationService.send_task_notification, he, hn, hf, hr]
            rw [hd]
            constructor
            · intro hany
              exact ⟨he, by simpa using hn, by simpa using hf, m, rfl, hany⟩
            · rintro ⟨-, -, -, m2, hr2, hany2⟩
              cases hr2
              exact hany2
    · have he2 : (NotificationService.get_settings store).2.1 = false := by
        simpa using he
      simp [NotificationService.send_task_notification, he2]

/-- Claim C9 witness: a working-path dispatch returning `True`, and the three
quiescent cases returning `False`. -/
theorem dispatch_result_spec_witness :
    NotificationService.send_task_notification "NEW_PROJECT" fullNewProjectCtx
      NotificationService.SettingsFetch.err okEndpoint = false
    ∧ NotificationService.send_task_notification "NEW_PROJECT" fullNewProjectCtx
        disabledStore okEndpoint = false
    ∧ NotificationService.send_task_notification "NEW_PROJECT" fullNewProjectCtx
        adminStore okEndpoint = true := by
  have h1 := dispatch_result_spec "NEW_PROJECT" fullNewProjectCtx .err okEndpoint
  have h2 := dispatch_result_spec "NEW_PROJECT" fullNewProjectCtx disabledStore okEndpoint
  have h3 := dispatch_result_spec "NEW_PROJECT" fullNewProjectCtx adminStore okEndpoint
  refine ⟨h1.2.1 (by decide), h2.2.1 (by decide), ?_⟩
  refine (h3.2.2.2.2).mpr ⟨by decide, by decide, by decide, ?_⟩
  refine ⟨(NotificationService.render_template "NEW_PROJECT" fullNewProjectCtx []).toOption.getD "",
    by decide, by decide⟩

/-! ## C2: only filter-passing recipients are sent to -/

/-- Claim C2 counterexample.  The `notify_task_created` signal handler sends
the rendered `NEW_PROJECT` message to a print-manager recipient even though
that recipient fails the recipient filter (the print-manager role-interest
set does not include `NEW_PROJECT`): the signal handlers never invoke the
filter. -/
theorem trigger_bypasses_filter_cex :
    pmRecipient ∈ notify_task_created_sends sampleTask pmStore
    ∧ NotificationService.filter_recipients_by_role "NEW_PROJECT" [pmRecipient]
        (new_project_context sampleTask) = [] := by
  constructor
  · decide
  · decide

/-- Claim C2 (amended).  The filter invariant holds on the orchestrator path:
every recipient `send_task_notification` sends to passes all three filter
stages.  The signal-handler trigger path does not filter: whenever its
guards pass and rendering succeeds, `notify_task_created` sends to every
configured recipient having a phone and an API key. -/
theorem dispatch_sends_pass_filter (t : String) (context : Ctx)
    (store : NotificationService.SettingsFetch) (task : TaskInfo) (r : Recipient) :
    (r ∈ NotificationService.send_task_notification_sends t context store →
      NotificationService.should_send_to_role t (recipientRole r) context = true
      ∧ NotificationService.should_exclude_action_creator r context = false
      ∧ truthy (NotificationService.check_user_preferences r t context) = true)
    ∧ (∀ m, task.hasParent = false →
        (NotificationService.get_settings store).2.1 = true →
        (NotificationService.get_settings store).1.isEmpty = false →
        NotificationService.render_template "NEW_PROJECT" (new_project_context task)
          (NotificationService.get_settings store).2.2 = .ok m →
        notify_task_created_sends task store
          = (NotificationService.get_settings store).1.filter
              (fun x => !(effectivePhone x = "") && !(x.apiKey = ""))) := by
  constructor
  · intro hmem
    unfold NotificationService.send_task_notification_sends at hmem
    simp only at hmem
    split at hmem
    · cases hmem
    · split at hmem
      · cases hmem
      · split at hmem
        · cases hmem
        · split at hmem
          · cases hmem
          · split at hmem
            · cases hmem
            · obtain ⟨hmem2, -⟩ := List.mem_filter.mp hmem
              unfold NotificationService.filter_recipients_by_role at hmem2
              obtain ⟨-, hpred⟩ := List.mem_filter.mp hmem2
              simp only [Bool.and_eq_true] at hpred
              obtain ⟨⟨h1, h2⟩, h3⟩ := hpred
              rw [Bool.not_eq_eq_eq_not, Bool.not_true] at h2
              exact ⟨h1, h2, h3⟩
  · intro m hpar he hn hr
    unfold notify_task_created_sends
    rw [hpar]
    simp only [Bool.false_eq_true, if_false, he, hn, hr]
    simp

/-- Claim C2 witness. -/
theorem dispatch_sends_pass_filter_witness :
    (NotificationService.should_send_to_role "NEW_PROJECT" (recipientRole adminRecipient)
        fullNewProjectCtx = true
      ∧ NotificationService.should_exclude_action_creator adminRecipient fullNewProjectCtx = false
      ∧ truthy (NotificationService.check_user_preferences adminRecipient "NEW_PROJECT"
          fullNewProjectCtx) = true)
    ∧ notify_task_created_sends sampleTask adminStore
        = (NotificationService.get_settings adminStore).1.filter
            (fun x => !(effectivePhone x = "") && !(x.apiKey = "")) := by
  have h := dispatch_sends_pass_filter "NEW_PROJECT" fullNewProjectCtx adminStore sampleTask
    adminRecipient
  refine ⟨h.1 (by decide), ?_⟩
  exact h.2 ((NotificationService.render_template "NEW_PROJECT"
      (new_project_context sampleTask) []).toOption.getD "")
    (by decide) (by decide) (by decide) (by decide)

/-! ## C3: rendering with a complete context -/

theorem noEscapes_tail {c : Char} {l : List Char} (h : noEscapes (c :: l)) : noEscapes l :=
  ⟨fun hi => h.1 (List.infix_cons hi), fun hi => h.2 (List.infix_cons hi)⟩

theorem braceFree_nil : braceFree [] := by
  constructor <;> simp

theorem braceFree_cons {c : Char} {l : List Char} (h1 : ¬ c = lbrace) (h2 : ¬ c = rbrace)
    (h : braceFree l) : braceFree (c :: l) := by
  constructor
  · intro hm
    rcases List.mem_cons.mp hm with h' | h'
    · exact h1 h'.symm
    · exact h.1 h'
  · intro hm
    rcases List.mem_cons.mp hm with h' | h'
    · exact h2 h'.symm
    · exact h.2 h'

theorem braceFree_append {a b : List Char} (ha : braceFree a) (hb : braceFree b) :
    braceFree (a ++ b) := by
  constructor
  · intro hm
    rcases List.mem_append.mp hm with h' | h'
    · exact ha.1 h'
    · exact hb.1 h'
  · intro hm
    rcases List.mem_append.mp hm with h' | h'
    · exact ha.2 h'
    · exact hb.2 h'

/-- If the template parses (per `fmtNames`) and every parsed field name is
bound in the context, formatting succeeds. -/
theorem pyFmt_ok_of_fmtNames (ctx : Ctx) :
    ∀ (l : List Char) (mode : FmtMode) (ns : List String),
      fmtNames l mode = some ns →
      (∀ n ∈ ns, (List.lookup n ctx).isSome = true) →
      ∃ out, pyFmt ctx l mode = .ok out := by
  intro l
  induction l with
  | nil =>
    intro mode ns h hcov
    cases mode with
    | literal => exact ⟨[], rfl⟩
    | afterRBrace => simp [fmtNames] at h
    | field acc => simp [fmtNames] at h
  | cons c rest ih =>
    intro mode ns h hcov
    cases mode with
    | literal =>
      by_cases hc1 : c = lbrace
      · simp only [fmtNames, if_pos hc1] at h
        obtain ⟨out, hout⟩ := ih (.field []) ns h hcov
        exact ⟨out, by simp only [pyFmt, if_pos hc1]; exact hout⟩
      · by_cases hc2 : c = rbrace
        · simp only [fmtNames, if_neg hc1, if_pos hc2] at h
          obtain ⟨out, hout⟩ := ih .afterRBrace ns h hcov
          exact ⟨out, by simp only [pyFmt, if_neg hc1, if_pos hc2]; exact hout⟩
        · simp only [fmtNames, if_neg hc1, if_neg hc2] at h
          obtain ⟨out, hout⟩ := ih .literal ns h hcov
          exact ⟨c :: out, by simp only [pyFmt, if_neg hc1, if_neg hc2, hout, Except.map]⟩
    | afterRBrace =>
      by_cases hc2 : c = rbrace
      · simp only [fmtNames, if_pos hc2] at h
        obtain ⟨out, hout⟩ := ih .literal ns h hcov
        exact ⟨rbrace :: out, by simp only [pyFmt, if_pos hc2, hout, Except.map]⟩
      · simp only [fmtNames, if_neg hc2] at h
        cases h
    | field acc =>
      by_cases hc2 : c = rbrace
      · simp only [fmtNames, if_pos hc2] at h
        by_cases hd : acc.reverse.all Char.isDigit
        · rw [if_pos hd] at h
          cases h
        · rw [if_neg hd] at h
          cases hrec : fmtNames rest .literal with
          | none => rw [hrec] at h; cases h
          | some ns2 =>
            rw [hrec] at h
            simp only [Option.map_some', Option.some.injEq] at h
            subst h
            have hname := hcov (String.mk acc.reverse) (List.mem_cons_self _ _)
            cases hlk : List.lookup (String.mk acc.reverse) ctx with
            | none => rw [hlk] at hname; simp at hname
            | some v =>
              obtain ⟨out, hout⟩ := ih .literal ns2 hrec
                (fun n hn => hcov n (List.mem_cons_of_mem _ hn))
              exact ⟨(pyStr v).toList ++ out,
                by simp only [pyFmt, if_pos hc2, if_neg hd, hlk, hout, Except.map]⟩
      · by_cases hc1 : c = lbrace
        · simp only [fmtNames, if_neg hc2, if_pos hc1] at h
          by_cases hacc : acc.isEmpty
          · rw [if_pos hacc] at h
            obtain ⟨out, hout⟩ := ih .literal ns h hcov
            exact ⟨lbrace :: out,
              by simp only [pyFmt, if_neg hc2, if_pos hc1, if_pos hacc, hout, Except.map]⟩
          · rw [if_neg hacc] at h
            cases h
        · simp only [fmtNames, if_neg hc2, if_neg hc1] at h
          obtain ⟨out, hout⟩ := ih (.field (c :: acc)) ns h hcov
          exact ⟨out, by simp only [pyFmt, if_neg hc2, if_neg hc1]; exact hout⟩

/-- If the template has no doubled-brace escape and every context value is
brace-free, a successful format output is brace-free. -/
theorem pyFmt_braceFree (ctx : Ctx)
    (hv : ∀ p ∈ ctx, braceFree (pyStr p.2).toList) :
    ∀ (l : List Char) (mode : FmtMode) (out : List Char),
      noEscapes l →
      (mode = .afterRBrace → ¬ ∃ r2, l = rbrace :: r2) →
      (∀ acc, mode = .field acc → acc = [] → ¬ ∃ r2, l = lbrace :: r2) →
      pyFmt ctx l mode = .ok out → braceFree out := by
  intro l
  induction l with
  | nil =>
    intro mode out hne hm1 hm2 hok
    cases mode with
    | literal =>
      have hout : ([] : List Char) = out := by simpa [pyFmt] using hok
      rw [← hout]
      exact braceFree_nil
    | afterRBrace => simp [pyFmt] at hok
    | field acc => simp [pyFmt] at hok
  | cons c rest ih =>
    intro mode out hne hm1 hm2 hok
    have hnerest : noEscapes rest := noEscapes_tail hne
    cases mode with
    | literal =>
      by_cases hc1 : c = lbrace
      · simp only [pyFmt, if_pos hc1] at hok
        refine ih (.field []) out hnerest (by simp) ?_ hok
        intro acc hf hacce hex
        obtain ⟨r2, hr2⟩ := hex
        exact hne.1 ⟨[], r2, by rw [hc1, hr2]; rfl⟩
      · by_cases hc2 : c = rbrace
        · simp only [pyFmt, if_neg hc1, if_pos hc2] at hok
          refine ih .afterRBrace out hnerest ?_ (by simp) hok
          intro _ hex
          obtain ⟨r2, hr2⟩ := hex
          exact hne.2 ⟨[], r2, by rw [hc2, hr2]; rfl⟩
        · simp only [pyFmt, if_neg hc1, if_neg hc2] at hok
          cases hrec : pyFmt ctx rest .literal with
          | error e => rw [hrec] at hok; simp [Except.map] at hok
          | ok out2 =>
            rw [hrec] at hok
            simp only [Except.map, Except.ok.injEq] at hok
            rw [← hok]
            exact braceFree_cons hc1 hc2
              (ih .literal out2 hnerest (by simp) (by simp) hrec)
    | afterRBrace =>
      by_cases hc2 : c = rbrace
      · exact absurd ⟨rest, by rw [hc2]⟩ (hm1 rfl)
      · simp [pyFmt, hc2] at hok
    | field acc =>
      by_cases hc2 : c = rbrace
      · simp only [pyFmt, if_pos hc2] at hok
        by_cases hd : acc.reverse.all Char.isDigit
        · rw [if_pos hd] at hok
          cases hok
        · rw [if_neg hd] at hok
          cases hlk : List.lookup (String.mk acc.reverse) ctx with
          | none => rw [hlk] at hok; cases hok
          | some v =>
            rw [hlk] at hok
            cases hrec : pyFmt ctx rest .literal with
            | error e => rw [hrec] at hok; simp [Except.map] at hok
            | ok out2 =>
              rw [hrec] at hok
              simp only [Except.map, Except.ok.injEq] at hok
              rw [← hok]
              exact braceFree_append (hv _ (lookup_mem ctx _ v hlk))
                (ih .literal out2 hnerest (by simp) (by simp) hrec)
      · by_cases hc1 : c = lbrace
        · by_cases hacc : acc.isEmpty
          · exact absurd ⟨rest, by rw [hc1]⟩ (hm2 acc rfl (List.isEmpty_iff.mp hacc))
          · simp only [pyFmt, if_neg hc2, if_pos hc1, if_neg hacc] at hok
            cases hok
        · simp only [pyFmt, if_neg hc2, if_neg hc1] at hok
          refine ih (.field (c :: acc)) out hnerest (by simp) ?_ hok
          intro acc2 hf hacce
          rw [hacce] at hf
          simp at hf

theorem defaultTemplatesOk_eq : defaultTemplatesOk = true := by decide

theorem token_not_infix_of_braceFree {out : List Char} {name : String}
    (h : braceFree out) : ¬ (placeholderToken name <:+: out) := by
  intro hinf
  exact h.1 (List.IsInfix.mem (List.mem_cons_self _ _) hinf)

/-- Claim C3 counterexample.  Rendering `NEW_PROJECT` with a complete context
whose `taskTitle` value is the string `"{urgency}"` succeeds and the output
contains the literal token `{urgency}` — a required-set token — because
`str.format` copies substituted values verbatim. -/
theorem render_value_token_cex :
    (match NotificationService.render_template "NEW_PROJECT" tokenValueCtx [] with
     | .ok m => decide (placeholderToken "urgency" <:+: m.toList)
     | .error _ => false) = true := by decide

/-- Claim C3 (amended).  For every type recognized by the built-in defaults
and every context binding all of its required placeholders, rendering with
no custom templates succeeds, unconditionally; and if moreover the string
form of no context value contains a brace character, the output contains no
literal `{name}` token for any required `name` (the proviso scopes only this
no-token conclusion, which the counterexample shows to fail without it). -/
theorem render_complete_context_ok_no_token (t tmpl : String) (context : Ctx)
    (htmpl : List.lookup t NotificationService.DEFAULT_TEMPLATES = some tmpl)
    (hcov : ∀ k ∈ (List.lookup t NotificationService.REQUIRED_PLACEHOLDERS).getD [],
        (List.lookup k context).isSome = true) :
    ∃ m, NotificationService.render_template t context [] = .ok m
      ∧ ((∀ p ∈ context, braceFree (pyStr p.2).toList) →
          ∀ name ∈ (List.lookup t NotificationService.REQUIRED_PLACEHOLDERS).getD [],
            ¬ (placeholderToken name <:+: m.toList)) := by
  have hmem := lookup_mem _ _ _ htmpl
  have hbundle := List.all_eq_true.mp defaultTemplatesOk_eq (t, tmpl) hmem
  simp only [Bool.and_eq_true] at hbundle
  obtain ⟨⟨hparse, hesc1⟩, hesc2⟩ := hbundle
  simp only [Bool.not_eq_true', decide_eq_false_iff_not] at hesc1 hesc2
  cases hns : fmtNames tmpl.toList .literal with
  | none => rw [hns] at hparse; cases hparse
  | some ns =>
    rw [hns] at hparse
    have hnames : ∀ n ∈ ns, (List.lookup n context).isSome = true := by
      intro n hn
      have hc := List.all_eq_true.mp hparse n hn
      exact hcov n (List.mem_of_elem_eq_true hc)
    obtain ⟨out, hout⟩ := pyFmt_ok_of_fmtNames context tmpl.toList .literal ns hns hnames
    have hmiss : ((List.lookup t NotificationService.REQUIRED_PLACEHOLDERS).getD []).filter
        (fun key => (List.lookup key context).isNone) = [] := by
      refine List.filter_eq_nil_iff.mpr ?_
      intro k hk hkn
      have hs := hcov k hk
      cases hlk : List.lookup k context with
      | none => rw [hlk] at hs; simp at hs
      | some v => rw [hlk] at hkn; simp at hkn
    refine ⟨String.mk out, ?_, ?_⟩
    · have hout2 : pyFmt context tmpl.data FmtMode.literal = Except.ok out := hout
      unfold NotificationService.render_template
      simp [htmpl, hmiss, hout2]
    · intro hval name hname
      have hbf : braceFree out := pyFmt_braceFree context hval tmpl.toList .literal out
        ⟨hesc1, hesc2⟩ (by simp) (by simp) hout
      have hlist : (String.mk out).toList = out := rfl
      rw [hlist]
      exact token_not_infix_of_braceFree hbf

/-- Claim C3 witness. -/
theorem render_complete_context_ok_no_token_witness :
    ∃ m, NotificationService.render_template "NEW_PROJECT" fullNewProjectCtx [] = .ok m
      ∧ ((∀ p ∈ fullNewProjectCtx, braceFree (pyStr p.2).toList) →
          ∀ name ∈ (List.lookup "NEW_PROJECT" NotificationService.REQUIRED_PLACEHOLDERS).getD [],
            ¬ (placeholderToken name <:+: m.toList)) :=
  render_complete_context_ok_no_token "NEW_PROJECT"
    ((List.lookup "NEW_PROJECT" NotificationService.DEFAULT_TEMPLATES).getD "")
    fullNewProjectCtx (by decide) (by decide)
